import Mathlib

/-!
Verification of the survey-bot session engine (`src/bot.py`).

The embedding models one inbound event at a time: each Telegram handler
becomes a pure Lean function from the current time, the participant's
identity and that identity's stored session (if any) to the updated
session and the list of outbound effects, mirroring the Python handlers
line by line.  The Google-Sheets backend is modelled as a list of rows of
strings with the row-major cell search performed by `gspread`'s `find`.
-/

namespace SurveyBot

/-- `SURVEY_EXPIRY_TIME = 180` (3 minutes), from `bot.py` line 21. -/
def SURVEY_EXPIRY_TIME : Nat := 180

/-- The fixed questionnaire, `bot.py` lines 99-110. -/
def questions : List String :=
  [ "The closer I am to a major exam, the harder it is for me to concentrate on the material.",
    "When I study, I worry that I will not remember the material on the exam.",
    "During important exams, I think that I am doing awful or that I may fail.",
    "I lose focus on important exams, and I cannot remember material that I knew before the exam.",
    "I finally remember the answer to exam questions after the exam is already over.",
    "I worry so much before a major exam that I am too worn out to do my best on the exam.",
    "I feel out of sorts or not really myself when I take important exams.",
    "I find that my mind sometimes wanders when I am taking important exams.",
    "After an exam, I worry about whether I did well enough.",
    "I struggle with writing assignments, or avoid them as long as I can. I feel that whatever I do will not be good enough." ]

/-- One entry of the `user_responses` dict: `{"responses": [...], "start_time": t}`
with the optional keys `"age"` and `"sex"` added later by the handlers. -/
structure Session where
  responses : List String
  start_time : Nat
  age : Option Nat := none
  sex : Option String := none
deriving Repr, DecidableEq

/-- An outbound side effect of a handler: a message sent to the participant,
or a record handed to the persistence layer. -/
inductive Effect where
  | send (text : String)
  | persist (record : List String)
deriving Repr, DecidableEq

def expiredMsg : String := "Your session has expired. Please restart with /start."
def agePromptMsg : String := "Please enter your age:"
def sexPromptMsg : String := "Please select your sex:"
def invalidAgeMsg : String := "Invalid input. Please enter a valid age:"
def startTestMsg : String := "Thank you! Now let's start the test."
def thankYouMsg : String := "Thank you for completing the test! Your responses have been saved."

/-- `f"Q{index+1}: {questions[index]}"` (`bot.py` line 179); call sites guard
`index < len(questions)`, so the default for an out-of-range index is unused. -/
def questionPrompt (index : Nat) : String :=
  "Q" ++ toString (index + 1) ++ ": " ++ questions.getD index ""

/-- Python `str.isdigit` on ASCII text: nonempty and all characters digits. -/
def strDigits (s : String) : Bool :=
  s.length > 0 && s.data.all Char.isDigit

/-- Python `int(...)` on a digit string. -/
def strToNat (s : String) : Nat :=
  s.data.foldl (fun n c => 10 * n + (c.toNat - 48)) 0

/-- `str(user_responses[user_id].get("age", "N/A"))` (`bot.py` line 241). -/
def ageField (s : Session) : String :=
  match s.age with
  | some a => toString a
  | none => "N/A"

/-- `str(user_responses[user_id].get("sex", "N/A"))` (`bot.py` line 242). -/
def sexField (s : Session) : String :=
  match s.sex with
  | some x => x
  | none => "N/A"

/-- The `response_data` list built and truncated by `save_response`
(`bot.py` lines 238-246): identity, age or placeholder, sex or placeholder,
the ratings, the elapsed time, cut to at most 14 columns. -/
def buildRecord (uid : Nat) (s : Session) (now : Nat) : List String :=
  ([toString uid, ageField s, sexField s]
    ++ s.responses ++ [toString (now - s.start_time)]).take 14

/-- `/start` handler (`bot.py` lines 117-121): unconditionally replace the
session with a fresh one and prompt for the age. -/
def start (now : Nat) (_sess : Option Session) : Option Session × List Effect :=
  (some { responses := [], start_time := now }, [Effect.send agePromptMsg])

/-- `/help` handler (`bot.py` lines 123-146): static content, the session
store is not touched. -/
def help_command (sess : Option Session) : Option Session × List Effect :=
  (sess, [Effect.send "help text"])

/-- The guard shared by `ask_question`, `handle_response` and `save_response`:
`time.time() - start_time > SURVEY_EXPIRY_TIME`. -/
def isExpired (now : Nat) (s : Session) : Prop :=
  now - s.start_time > SURVEY_EXPIRY_TIME

instance (now : Nat) (s : Session) : Decidable (isExpired now s) := by
  unfold isExpired; infer_instance

/-- `save_response` (`bot.py` lines 232-271) restricted to its effect on the
session store and its emitted effects: if the session is gone or expired, pop
it and send the expiry notice; otherwise emit the persistence of the built
record, delete the session and thank the participant. -/
def save_response (now uid : Nat) (sess : Option Session) :
    Option Session × List Effect :=
  match sess with
  | none => (none, [Effect.send expiredMsg])
  | some s =>
    if isExpired now s then (none, [Effect.send expiredMsg])
    else (none, [Effect.persist (buildRecord uid s now), Effect.send thankYouMsg])

/-- `ask_question` (`bot.py` lines 172-181): lazy expiry check, then either
prompt question `index` or, past the last question, save. -/
def ask_question (now uid : Nat) (sess : Option Session) (index : Nat) :
    Option Session × List Effect :=
  match sess with
  | none => (none, [Effect.send expiredMsg])
  | some s =>
    if isExpired now s then (none, [Effect.send expiredMsg])
    else if index < questions.length then
      (some s, [Effect.send (questionPrompt index)])
    else save_response now uid (some s)

/-- The catch-all text-message handler `handle_age` (`bot.py` lines 148-162):
only acts when a session exists and `"age"` is absent; a digit text stores the
age and asks for the sex, anything else re-prompts.  There is no expiry check
and no notice when the session is missing. -/
def handle_age (now uid : Nat) (sess : Option Session) (text : String) :
    Option Session × List Effect :=
  match sess with
  | none => (sess, [])
  | some s =>
    if s.age = none then
      if strDigits text then
        (some { s with age := some (strToNat text) }, [Effect.send sexPromptMsg])
      else (some s, [Effect.send invalidAgeMsg])
    else (sess, [])

/-- `handle_sex` (`bot.py` lines 164-170): writes
`user_responses[user_id]["sex"] = call.data` with no existence check (a
missing session raises `KeyError`) and no set-once guard, sends the
start-of-test message, then enters `ask_question(user_id, 0)`. -/
def handle_sex (now uid : Nat) (sess : Option Session) (choice : String) :
    Except String (Option Session × List Effect) :=
  match sess with
  | none => Except.error "KeyError"
  | some s =>
    let s' := { s with sex := some choice }
    let r := ask_question now uid (some s') 0
    Except.ok (r.1, Effect.send startTestMsg :: r.2)

/-- The rating-callback handler `handle_response` (`bot.py` lines 183-196),
dispatched only for `call.data` in `{"1",...,"5"}`: lazy expiry check popping
the session, then append the rating and either ask the next question or save. -/
def handle_response (now uid : Nat) (sess : Option Session) (rating : String) :
    Option Session × List Effect :=
  match sess with
  | none => (none, [Effect.send expiredMsg])
  | some s =>
    if isExpired now s then (none, [Effect.send expiredMsg])
    else
      let s' := { s with responses := s.responses ++ [rating] }
      if s'.responses.length < questions.length then
        ask_question now uid (some s') s'.responses.length
      else save_response now uid (some s')

/-! ### Google-Sheets backend model (`bot.py` lines 53-95 and 250-268) -/

/-- The worksheet: a list of rows of cell strings. -/
abbrev Sheet := List (List String)

/-- First index of a cell equal to `key` in one row. -/
def findInRow : List String → String → Option Nat
  | [], _ => none
  | c :: rest, key =>
    if c = key then some 0 else (findInRow rest key).map (· + 1)

/-- `gspread`'s `sheet.find(query)`: row-major scan of all cells, first match;
`none` when absent.  Returns a zero-based (row, column) pair. -/
def findCell : Sheet → String → Option (Nat × Nat)
  | [], _ => none
  | row :: rest, key =>
    match findInRow row key with
    | some c => some (0, c)
    | none =>
      match findCell rest key with
      | some (r, c) => some (r + 1, c)
      | none => none

/-- `sheet.update(range_name=f"A{row}:N{row}", values=[data])`: overwrite the
first `data.length` cells of row `r`, keeping any cells beyond them. -/
def updateRowAt : Sheet → Nat → List String → Sheet
  | [], _, _ => []
  | row :: rest, 0, data => (data ++ row.drop data.length) :: rest
  | row :: rest, r + 1, data => row :: updateRowAt rest r data

/-- The healthy Sheets path of `save_response` (`bot.py` lines 250-261):
find the identity's cell, update that row if found, else append. -/
def upsert (sheet : Sheet) (key : String) (data : List String) : Sheet :=
  match findCell sheet key with
  | some (r, _) => updateRowAt sheet r data
  | none => sheet ++ [data]

/-- Lines 250-264 with the `except APIError` branch made explicit: an API
error raised during the find/update step is caught and degrades to
`sheet.append_row(response_data)`. -/
def upsertWithError (sheet : Sheet) (key : String) (data : List String)
    (apiError : Bool) : Sheet :=
  if apiError then sheet ++ [data] else upsert sheet key data

/-- Module-level Google-Sheets setup (`bot.py` lines 53-95) as a function of
whether the client/spreadsheet/worksheet chain succeeds.  On failure the
`except` block sets `USE_GOOGLE_SHEETS = False`, logs a CSV-fallback warning,
writes `emergency_fallback.csv` — and then re-raises, so module import (and
with it process startup) aborts. -/
structure InitOutcome where
  use_google_sheets : Bool
  startup_raises : Bool
deriving Repr, DecidableEq

def sheetsInit (setupSucceeds : Bool) : InitOutcome :=
  if setupSucceeds then { use_google_sheets := true, startup_raises := false }
  else { use_google_sheets := false, startup_raises := true }

/-- The backend routing of `save_response` (`bot.py` lines 250-268): the
Sheets upsert when `USE_GOOGLE_SHEETS` is true, otherwise a row appended to
the local `responses.csv`. -/
def save_routed (useGS : Bool) (sheet : Sheet) (csv : List (List String))
    (key : String) (data : List String) (apiError : Bool) :
    Sheet × List (List String) :=
  if useGS then (upsertWithError sheet key data apiError, csv)
  else (sheet, csv ++ [data])

/-! ### Expiry sweeper (`bot.py` lines 274-286) -/

/-- The sweeper's expiry test on one `(user_id, data)` item:
`current_time - data["start_time"] > SURVEY_EXPIRY_TIME`. -/
def expiredB (now : Nat) (p : Nat × Session) : Bool :=
  now - p.2.start_time > SURVEY_EXPIRY_TIME

/-- One iteration of `cleanup_expired_sessions`'s `while` body: snapshot the
expired identities, delete each from the store, and attempt one notice per
expired identity; `notifyFails` tells which sends raise, and the
`try/except Exception: pass` swallows every failure, so the notice outcomes
do not influence the deletions.  The result pairs the surviving store with
the list of attempted notices (identity, whether the send failed). -/
def sweepTick (notifyFails : Nat → Bool) (now : Nat)
    (store : List (Nat × Session)) :
    List (Nat × Session) × List (Nat × Bool) :=
  let expired := (store.filter (fun p => expiredB now p)).map Prod.fst
  (expired.foldl (fun st u => st.filter (fun p => p.1 ≠ u)) store,
   expired.map (fun u => (u, notifyFails u)))

/-! ### Helper predicates and lemmas -/

/-- Some cell of the row equals the key. -/
def rowHasKey (key : String) (row : List String) : Bool :=
  row.any (fun c => c = key)

/-- Some cell of the sheet equals the key. -/
def sheetHasKey (key : String) (sheet : Sheet) : Bool :=
  sheet.any (fun row => rowHasKey key row)

theorem findInRow_eq_none {row : List String} {key : String}
    (h : rowHasKey key row = false) : findInRow row key = none := by
  induction row with
  | nil => rfl
  | cons c rest ih =>
    simp only [rowHasKey, List.any_cons, Bool.or_eq_false_iff, decide_eq_false_iff_not] at h
    simp [findInRow, h.1, ih h.2]

theorem findInRow_head {row : List String} {key : String}
    (h : row.head? = some key) : findInRow row key = some 0 := by
  cases row with
  | nil => simp at h
  | cons c rest =>
    simp only [List.head?_cons, Option.some.injEq] at h
    simp [findInRow, h]

theorem findCell_eq_none {sheet : Sheet} {key : String}
    (h : sheetHasKey key sheet = false) : findCell sheet key = none := by
  induction sheet with
  | nil => rfl
  | cons row rest ih =>
    simp only [sheetHasKey, List.any_cons, Bool.or_eq_false_iff] at h
    simp [findCell, findInRow_eq_none h.1, ih h.2]

theorem findCell_append_last {sheet : Sheet} {row : List String} {key : String}
    (h : sheetHasKey key sheet = false) (hrow : row.head? = some key) :
    findCell (sheet ++ [row]) key = some (sheet.length, 0) := by
  induction sheet with
  | nil => simp [findCell, findInRow_head hrow]
  | cons r0 rest ih =>
    simp only [sheetHasKey, List.any_cons, Bool.or_eq_false_iff] at h
    have : findCell (rest ++ [row]) key = some (rest.length, 0) := ih h.2
    simp [findCell, findInRow_eq_none h.1, List.cons_append, this]

theorem updateRowAt_append (sheet : Sheet) (row data : List String) :
    updateRowAt (sheet ++ [row]) sheet.length data
      = sheet ++ [data ++ row.drop data.length] := by
  induction sheet with
  | nil => rfl
  | cons r0 rest ih => simp [updateRowAt, List.cons_append, ih]

theorem filter_headKey_eq_nil {sheet : Sheet} {key : String}
    (h : sheetHasKey key sheet = false) :
    sheet.filter (fun row => row.head? == some key) = [] := by
  induction sheet with
  | nil => rfl
  | cons r0 rest ih =>
    simp only [sheetHasKey, List.any_cons, Bool.or_eq_false_iff] at h
    have hr0 : (r0.head? == some key) = false := by
      cases r0 with
      | nil => simp
      | cons c cs =>
        simp only [rowHasKey, List.any_cons, Bool.or_eq_false_iff,
          decide_eq_false_iff_not] at h
        simp [h.1.1]
    simp [List.filter_cons, hr0, ih h.2]

theorem mem_foldl_erase {p : Nat × Session} :
    ∀ (l : List Nat) (store : List (Nat × Session)),
      p ∈ l.foldl (fun st u => st.filter (fun q => q.1 ≠ u)) store →
      p ∈ store ∧ p.1 ∉ l := by
  intro l
  induction l with
  | nil => intro store h; exact ⟨h, List.not_mem_nil _⟩
  | cons u rest ih =>
    intro store h
    obtain ⟨hmem, hrest⟩ := ih (store.filter (fun q => q.1 ≠ u)) h
    rw [List.mem_filter] at hmem
    refine ⟨hmem.1, ?_⟩
    simp only [List.mem_cons, not_or]
    exact ⟨by simpa using hmem.2, hrest⟩

theorem findCell_row_lt {sheet : Sheet} {key : String} {r c : Nat} :
    findCell sheet key = some (r, c) → r < sheet.length := by
  induction sheet generalizing r with
  | nil => intro h; simp [findCell] at h
  | cons row rest ih =>
    intro h
    simp only [findCell] at h
    cases hrow : findInRow row key with
    | some i => rw [hrow] at h; cases h; simp
    | none =>
      rw [hrow] at h
      cases hrec : findCell rest key with
      | none => rw [hrec] at h; cases h
      | some rc =>
        rw [hrec] at h
        cases rc with
        | mk r0 c0 =>
          cases h
          have := ih hrec
          simpa [Nat.succ_lt_succ_iff] using this

theorem updateRowAt_mem {sheet : Sheet} {r : Nat} (data : List String)
    (h : r < sheet.length) :
    ∃ row, row ∈ sheet ∧ (data ++ row.drop data.length) ∈ updateRowAt sheet r data := by
  induction sheet generalizing r with
  | nil => simp at h
  | cons row rest ih =>
    cases r with
    | zero => exact ⟨row, List.mem_cons_self _ _, by simp [updateRowAt]⟩
    | succ r' =>
      obtain ⟨row', hrow', hmem⟩ := ih (by simpa [Nat.succ_lt_succ_iff] using h)
      exact ⟨row', List.mem_cons_of_mem _ hrow', by simp [updateRowAt, hmem]⟩

/-! ### Claims -/

/-- Claim C7: every persisted record is the flat list
`[identity, age-or-placeholder, sex-or-placeholder, answers..., duration]`
truncated to at most 14 columns, with the participant identity always in the
first column (and the demographic slots in positions 1 and 2). -/
theorem record_shape (uid now : Nat) (s : Session) :
    (buildRecord uid s now).length ≤ 14 ∧
    (buildRecord uid s now)[0]? = some (toString uid) ∧
    (buildRecord uid s now)[1]? = some (ageField s) ∧
    (buildRecord uid s now)[2]? = some (sexField s) := by
  refine ⟨?_, ?_, ?_, ?_⟩ <;>
    simp [buildRecord, List.length_take, List.getElem?_take]

/-- Claim C8: while a session awaits its age, a text that is not a digit
string only re-prompts — the session is returned unchanged and no other
effect is produced. -/
theorem invalid_age_reprompts (now uid : Nat) (s : Session) (t : String)
    (hage : s.age = none) (ht : strDigits t = false) :
    handle_age now uid (some s) t = (some s, [Effect.send invalidAgeMsg]) := by
  simp [handle_age, hage, ht]

/-- Witness for `invalid_age_reprompts` at the spec's scenario `"abc"`. -/
theorem invalid_age_reprompts_witness :
    ({ responses := [], start_time := 0 } : Session).age = none ∧
    strDigits "abc" = false ∧
    handle_age 5 1 (some { responses := [], start_time := 0 }) "abc"
      = (some { responses := [], start_time := 0 }, [Effect.send invalidAgeMsg]) :=
  ⟨rfl, by decide,
    invalid_age_reprompts 5 1 { responses := [], start_time := 0 } "abc" rfl (by decide)⟩

/-- Claim C4 counterexample: a failed Google-Sheets initialization does not
let the process continue into CSV mode — the `except` block re-raises, so
startup aborts (the claim requires `startup_raises = false`). -/
theorem init_failure_not_survivable :
    ¬ ((sheetsInit false).startup_raises = false) := by decide

/-- Claim C4 (amended): a failed initialization does set the process-wide
flag that routes `save_response` to the append-only CSV sink, and with that
flag every upsert appends to the CSV — but the setup code then re-raises, so
startup aborts and no upsert ever runs after an initialization failure. -/
theorem init_failure_sets_flag_then_raises (sheet : Sheet)
    (csv : List (List String)) (key : String) (data : List String) (e : Bool) :
    (sheetsInit false).use_google_sheets = false ∧
    (sheetsInit false).startup_raises = true ∧
    save_routed false sheet csv key data e = (sheet, csv ++ [data]) :=
  ⟨rfl, rfl, rfl⟩

/-- Claim C6: an API error during the find/update step of the Sheets upsert
degrades to an append of the very record, and in every outcome the record is
persisted (as a prefix of some row — the full row when appended). -/
theorem upsert_never_drops (sheet : Sheet) (key : String) (data : List String)
    (apiError : Bool) :
    (apiError = true → upsertWithError sheet key data apiError = sheet ++ [data]) ∧
    ∃ row, row ∈ upsertWithError sheet key data apiError ∧
      row.take data.length = data := by
  cases apiError with
  | true =>
    refine ⟨fun _ => rfl, data, ?_, List.take_length data⟩
    simp [upsertWithError]
  | false =>
    refine And.intro (fun h => absurd h (by decide)) ?_
    simp only [upsertWithError, Bool.false_eq_true, if_false, upsert]
    cases hf : findCell sheet key with
    | none => exact ⟨data, by simp, List.take_length data⟩
    | some rc =>
      cases rc with
      | mk r c =>
        obtain ⟨row, _, hmem⟩ := updateRowAt_mem data (findCell_row_lt hf)
        exact ⟨data ++ row.drop data.length, hmem, by simp [List.take_left]⟩

/-- Witness for `upsert_never_drops` on a one-row sheet with an API error. -/
theorem upsert_never_drops_witness :
    (true = true →
      upsertWithError [["9", "x"]] "7" ["7", "30"] true
        = [["9", "x"]] ++ [["7", "30"]]) ∧
    ∃ row, row ∈ upsertWithError [["9", "x"]] "7" ["7", "30"] true ∧
      row.take (["7", "30"] : List String).length = ["7", "30"] :=
  upsert_never_drops [["9", "x"]] "7" ["7", "30"] true

/-- Unfolding of `handle_response` for a stored, non-expired session: the
rating is appended, then either the next question is asked or the session is
saved and deleted. -/
theorem handle_response_not_expired (now uid : Nat) (s : Session) (r : String)
    (hexp : ¬ isExpired now s) :
    handle_response now uid (some s) r =
      if s.responses.length + 1 < questions.length then
        (some { s with responses := s.responses ++ [r] },
         [Effect.send (questionPrompt (s.responses.length + 1))])
      else
        (none,
         [Effect.persist (buildRecord uid { s with responses := s.responses ++ [r] } now),
          Effect.send thankYouMsg]) := by
  have hexp' : ¬ isExpired now { s with responses := s.responses ++ [r] } := hexp
  by_cases hlt : s.responses.length + 1 < questions.length
  · simp [handle_response, ask_question, if_neg hexp, if_neg hexp', hlt]
  · simp [handle_response, save_response, if_neg hexp, if_neg hexp', hlt]

/-- Claim C1: for a stored session and a non-expired rating event, the
answers list grows by exactly one (either kept in the store or handed whole
to the persist effect), stored sessions never hold more than
`questions.length = 10` answers, and neither a text message nor a sex-choice
callback changes the answers list of a surviving session. -/
theorem answers_grow_by_one (now uid : Nat) (s : Session) (r t c : String)
    (hr : r ∈ (["1", "2", "3", "4", "5"] : List String))
    (hexp : ¬ isExpired now s) :
    ((handle_response now uid (some s) r).1
        = some { s with responses := s.responses ++ [r] } ∨
      ((handle_response now uid (some s) r).1 = none ∧
        Effect.persist (buildRecord uid { s with responses := s.responses ++ [r] } now)
          ∈ (handle_response now uid (some s) r).2)) ∧
    (∀ s'', (handle_response now uid (some s) r).1 = some s'' →
        s''.responses.length = s.responses.length + 1 ∧
        s''.responses.length ≤ questions.length) ∧
    (∀ s'', (handle_age now uid (some s) t).1 = some s'' →
        s''.responses = s.responses) ∧
    (∀ out s'', handle_sex now uid (some s) c = Except.ok out →
        out.1 = some s'' → s''.responses = s.responses) := by
  rw [handle_response_not_expired now uid s r hexp]
  refine ⟨?_, ?_, ?_, ?_⟩
  · by_cases hlt : s.responses.length + 1 < questions.length
    · left; simp [hlt]
    · right; simp [hlt]
  · intro s'' h
    by_cases hlt : s.responses.length + 1 < questions.length
    · rw [if_pos hlt] at h
      simp only [Option.some.injEq] at h
      subst h
      refine ⟨by simp, ?_⟩
      simpa using Nat.le_of_lt hlt
    · rw [if_neg hlt] at h
      cases h
  · intro s'' h
    by_cases ha : s.age = none
    · by_cases hd : strDigits t
      · simp only [handle_age, ha, if_true, hd, Option.some.injEq] at h
        subst h; rfl
      · simp only [handle_age, ha, if_true, hd, Bool.false_eq_true, if_false,
          Option.some.injEq] at h
        subst h; rfl
    · simp only [handle_age, ha, if_false, Option.some.injEq] at h
      subst h; rfl
  · intro out s'' h1 h2
    simp only [handle_sex, Except.ok.injEq] at h1
    subst h1
    have hexp' : ¬ isExpired now { s with sex := some c } := hexp
    simp only [ask_question, if_neg hexp'] at h2
    rw [if_pos (by decide)] at h2
    simp only [Option.some.injEq] at h2
    subst h2; rfl

/-- Witness for `answers_grow_by_one`: a fresh non-expired session accepting
rating "5" keeps the session with exactly that one answer stored. -/
theorem answers_grow_by_one_witness :
    ("5" : String) ∈ (["1", "2", "3", "4", "5"] : List String) ∧
    ¬ isExpired 10 { responses := [], start_time := 0 } ∧
    ((handle_response 10 1 (some { responses := [], start_time := 0 }) "5").1
        = some { responses := [] ++ ["5"], start_time := 0 } ∨
      ((handle_response 10 1 (some { responses := [], start_time := 0 }) "5").1 = none ∧
        Effect.persist (buildRecord 1 { responses := [] ++ ["5"], start_time := 0 } 10)
          ∈ (handle_response 10 1 (some { responses := [], start_time := 0 }) "5").2)) :=
  ⟨by decide, by decide,
    (answers_grow_by_one 10 1 { responses := [], start_time := 0 } "5" "x" "male"
      (by decide) (by decide)).1⟩

/-- Claim C2 counterexample: a text message for a session 200 seconds old
(past the 180-second window) is not answered with an expiry notice — the age
is stored, the session survives, and the sex prompt is sent. -/
theorem expired_text_still_advances :
    isExpired 200 { responses := [], start_time := 0 } ∧
    handle_age 200 1 (some { responses := [], start_time := 0 }) "23"
      = (some { responses := [], start_time := 0, age := some 23 },
         [Effect.send sexPromptMsg]) := by
  constructor
  · decide
  · decide

/-- Claim C2 (amended): only the rating callback performs the lazy expiry
check (notice, deletion, no state change).  A text message with no session is
silently ignored with no notice; a sex-choice callback with no session fails
with a `KeyError`; for an expired stored session a sex-choice callback still
writes the sex and sends the start-of-test message before `ask_question`
detects the expiry and deletes the session, and a text message still stores
the age and advances with no expiry notice at all. -/
theorem lazy_expiry_only_for_ratings (now uid : Nat) (sess : Option Session)
    (r t c : String)
    (h : sess = none ∨ ∃ s, sess = some s ∧ isExpired now s) :
    handle_response now uid sess r = (none, [Effect.send expiredMsg]) ∧
    (sess = none → handle_age now uid sess t = (none, []) ∧
      handle_sex now uid sess c = Except.error "KeyError") ∧
    (∀ s, sess = some s →
      handle_sex now uid sess c
        = Except.ok (none, [Effect.send startTestMsg, Effect.send expiredMsg])) ∧
    (∀ s, sess = some s → s.age = none → strDigits t = true →
      handle_age now uid sess t
        = (some { s with age := some (strToNat t) }, [Effect.send sexPromptMsg])) := by
  rcases h with rfl | ⟨s0, rfl, hex⟩
  · refine ⟨rfl, fun _ => ⟨rfl, rfl⟩, ?_, ?_⟩
    · intro s hs; cases hs
    · intro s hs; cases hs
  · refine ⟨?_, ?_, ?_, ?_⟩
    · simp [handle_response, hex]
    · intro h'; cases h'
    · intro s hs
      cases hs
      have hex' : isExpired now { s0 with sex := some c } := hex
      simp [handle_sex, ask_question, if_pos hex']
    · intro s hs ha hd
      cases hs
      simp [handle_age, ha, hd]

/-- Witness for `lazy_expiry_only_for_ratings` on an expired session. -/
theorem lazy_expiry_only_for_ratings_witness :
    ((some { responses := [], start_time := 0 } : Option Session) = none ∨
      ∃ s, (some { responses := [], start_time := 0 } : Option Session) = some s ∧
        isExpired 200 s) ∧
    handle_response 200 1 (some { responses := [], start_time := 0 }) "3"
      = (none, [Effect.send expiredMsg]) :=
  ⟨Or.inr ⟨{ responses := [], start_time := 0 }, rfl, by decide⟩,
    (lazy_expiry_only_for_ratings 200 1
      (some { responses := [], start_time := 0 }) "3" "23" "male"
      (Or.inr ⟨{ responses := [], start_time := 0 }, rfl, by decide⟩)).1⟩

/-- Claim C5 counterexample: a second sex-choice callback overwrites the
already-stored sex — `handle_sex` has no set-once guard. -/
theorem sex_overwritten :
    handle_sex 10 1
      (some { responses := [], start_time := 0, age := some 30, sex := some "male" })
      "female"
      = Except.ok
          (some { responses := [], start_time := 0, age := some 30, sex := some "female" },
           [Effect.send startTestMsg, Effect.send (questionPrompt 0)]) := by
  rfl

/-- Claim C5 (amended): within one session lifetime the age is written at
most once — once set, a further text message leaves the session untouched —
but the sex field is not guarded: every sex-choice callback that leaves a
stored session behind has set the sex to its own payload, overwriting any
earlier value. -/
theorem age_set_once_sex_overwritable (now uid : Nat) (s : Session)
    (t c : String) (a : Nat) (ha : s.age = some a) :
    handle_age now uid (some s) t = (some s, []) ∧
    (∀ out s'', handle_sex now uid (some s) c = Except.ok out →
      out.1 = some s'' → s'' = { s with sex := some c }) := by
  constructor
  · simp [handle_age, ha]
  · intro out s'' h1 h2
    simp only [handle_sex, Except.ok.injEq] at h1
    subst h1
    by_cases hex : isExpired now { s with sex := some c }
    · simp only [ask_question, if_pos hex] at h2
      cases h2
    · simp only [ask_question, if_neg hex] at h2
      rw [if_pos (by simp [questions])] at h2
      simp only [Option.some.injEq] at h2
      exact h2.symm

/-- Witness for `age_set_once_sex_overwritable`. -/
theorem age_set_once_sex_overwritable_witness :
    ({ responses := [], start_time := 0, age := some 30, sex := some "male" } :
        Session).age = some 30 ∧
    handle_age 10 1
      (some { responses := [], start_time := 0, age := some 30, sex := some "male" })
      "41"
      = (some { responses := [], start_time := 0, age := some 30, sex := some "male" },
         []) :=
  ⟨rfl,
    (age_set_once_sex_overwritable 10 1
      { responses := [], start_time := 0, age := some 30, sex := some "male" }
      "41" "female" 30 rfl).1⟩

/-- Claim C9: one sweeper tick leaves no expired session in the store,
attempts exactly one notice per expired identity, and the surviving store
does not depend on which notice sends fail (failures are swallowed). -/
theorem sweep_evicts_expired (f g : Nat → Bool) (now : Nat)
    (store : List (Nat × Session)) :
    (∀ p, p ∈ (sweepTick f now store).1 → expiredB now p = false) ∧
    (∀ p, p ∈ store → expiredB now p = true →
      (p.1, f p.1) ∈ (sweepTick f now store).2) ∧
    (sweepTick f now store).1 = (sweepTick g now store).1 := by
  refine ⟨?_, ?_, rfl⟩
  · intro p hp
    obtain ⟨hmem, hnl⟩ := mem_foldl_erase _ _ hp
    by_contra hex
    rw [Bool.not_eq_false] at hex
    exact hnl (List.mem_map_of_mem Prod.fst (List.mem_filter.mpr ⟨hmem, hex⟩))
  · intro p hmem hex
    exact List.mem_map_of_mem _
      (List.mem_map_of_mem Prod.fst (List.mem_filter.mpr ⟨hmem, hex⟩))

/-- Witness for `sweep_evicts_expired`: a store with one expired and one
live session; the expired identity gets its (failing) notice attempt. -/
theorem sweep_evicts_expired_witness :
    ((1, { responses := [], start_time := 0 }) : Nat × Session)
      ∈ [((1, { responses := [], start_time := 0 }) : Nat × Session),
         (2, { responses := [], start_time := 150 })] ∧
    expiredB 200 ((1, { responses := [], start_time := 0 }) : Nat × Session) = true ∧
    (1, (fun _ => true) 1)
      ∈ (sweepTick (fun _ => true) 200
          [((1, { responses := [], start_time := 0 }) : Nat × Session),
           (2, { responses := [], start_time := 150 })]).2 :=
  ⟨by decide, by decide,
    (sweep_evicts_expired (fun _ => true) (fun _ => false) 200
      [((1, { responses := [], start_time := 0 }) : Nat × Session),
       (2, { responses := [], start_time := 150 })]).2.1
      (1, { responses := [], start_time := 0 }) (by decide) (by decide)⟩

/-- Claim C10: a non-expired session with neither age nor sex set still
accepts a valid rating — it is appended, the survey advances or completes,
and the record built on completion carries the `"N/A"` placeholder in both
demographic columns. -/
theorem ratings_accepted_without_demographics (now uid : Nat) (s : Session)
    (r : String) (hage : s.age = none) (hsex : s.sex = none)
    (hr : r ∈ (["1", "2", "3", "4", "5"] : List String))
    (hexp : ¬ isExpired now s) :
    (s.responses.length + 1 < questions.length →
      (handle_response now uid (some s) r).1
        = some { s with responses := s.responses ++ [r] }) ∧
    (¬ s.responses.length + 1 < questions.length →
      handle_response now uid (some s) r
        = (none,
           [Effect.persist (buildRecord uid { s with responses := s.responses ++ [r] } now),
            Effect.send thankYouMsg])) ∧
    (buildRecord uid { s with responses := s.responses ++ [r] } now)[1]?
      = some "N/A" ∧
    (buildRecord uid { s with responses := s.responses ++ [r] } now)[2]?
      = some "N/A" := by
  rw [handle_response_not_expired now uid s r hexp]
  refine ⟨?_, ?_, ?_, ?_⟩
  · intro hlt
    simp [hlt]
  · intro hge
    simp [hge]
  · simp [buildRecord, ageField, hage, List.getElem?_take]
  · simp [buildRecord, sexField, hsex, List.getElem?_take]

/-- Witness for `ratings_accepted_without_demographics`: a fresh session
with no demographics accepting rating "4". -/
theorem ratings_accepted_without_demographics_witness :
    ({ responses := [], start_time := 0 } : Session).age = none ∧
    ({ responses := [], start_time := 0 } : Session).sex = none ∧
    ("4" : String) ∈ (["1", "2", "3", "4", "5"] : List String) ∧
    ¬ isExpired 10 { responses := [], start_time := 0 } ∧
    (([] : List String).length + 1 < questions.length →
      (handle_response 10 1 (some { responses := [], start_time := 0 }) "4").1
        = some { responses := [] ++ ["4"], start_time := 0 }) :=
  ⟨rfl, rfl, by decide, by decide,
    (ratings_accepted_without_demographics 10 1
      { responses := [], start_time := 0 } "4" rfl rfl (by decide) (by decide)).1⟩

/-- Claim C3: with a healthy backend, upserting a record for an identity not
yet in the sheet and then immediately upserting again for the same identity
leaves the sheet with the new record appended once and then overwritten in
place — exactly one row for that identity, holding the latest values. -/
theorem upsert_then_upsert_one_row (sheet : Sheet) (key : String)
    (r1 r2 : List String) (h0 : sheetHasKey key sheet = false)
    (h1 : r1.head? = some key) (h2 : r2.head? = some key)
    (hlen : r1.length ≤ r2.length) :
    upsert (upsert sheet key r1) key r2 = sheet ++ [r2] ∧
    (upsert (upsert sheet key r1) key r2).filter
        (fun row => row.head? == some key) = [r2] := by
  have hfirst : upsert sheet key r1 = sheet ++ [r1] := by
    simp [upsert, findCell_eq_none h0]
  have hsecond : upsert (sheet ++ [r1]) key r2 = sheet ++ [r2] := by
    rw [upsert, findCell_append_last h0 h1]
    show updateRowAt (sheet ++ [r1]) sheet.length r2 = sheet ++ [r2]
    rw [updateRowAt_append, List.drop_eq_nil_of_le hlen, List.append_nil]
  rw [hfirst, hsecond]
  refine ⟨rfl, ?_⟩
  rw [List.filter_append, filter_headKey_eq_nil h0]
  simp [h2]

/-- Witness for `upsert_then_upsert_one_row` on the empty sheet. -/
theorem upsert_then_upsert_one_row_witness :
    sheetHasKey "7" ([] : Sheet) = false ∧
    (["7", "20", "male", "5", "12"] : List String).head? = some "7" ∧
    (["7", "21", "male", "4", "4", "30"] : List String).head? = some "7" ∧
    (["7", "20", "male", "5", "12"] : List String).length
      ≤ (["7", "21", "male", "4", "4", "30"] : List String).length ∧
    upsert (upsert ([] : Sheet) "7" ["7", "20", "male", "5", "12"]) "7"
        ["7", "21", "male", "4", "4", "30"]
      = ([] : Sheet) ++ [["7", "21", "male", "4", "4", "30"]] :=
  ⟨rfl, rfl, rfl, by decide,
    (upsert_then_upsert_one_row ([] : Sheet) "7"
      ["7", "20", "male", "5", "12"] ["7", "21", "male", "4", "4", "30"]
      rfl rfl rfl (by decide)).1⟩

end SurveyBot
